import Mathlib

/-!
Shallow embedding of the `submit` command pipeline (`runSubmit` in
`cmd/submit.go`) of the exercism CLI, together with a spec-modelled view of
the config precedence exercised by `TestConfigure`.

Modelling conventions:
* Paths are `String`s.  `filepath.Abs` is modelled by the environment
  function `Env.abs` (the identity on already-absolute paths).
* The filesystem is a partial map from paths to nodes (`none` = the path
  does not exist, which `os.Lstat` reports via `os.IsNotExist`).
* `os.Lstat` reads the node without following symlinks;
  `filepath.EvalSymlinks` follows symlink chains with fuel;
  `os.Stat` and `os.Open` follow symlinks.
* The external collaborators of the pipeline (the workspace metadata store
  `ws.SolutionDir`, the solution loader `workspace.NewSolution`, the HTTP
  transport `client.Do`, and the random multipart boundary) are fields of
  `Env`.
* Observable effects are collected in an event trace: `warnEmpty` and
  `errMsg` model `fmt.Fprintf(Err, ...)` (the diagnostic stream), `outMsg`
  models `fmt.Fprintf(Out, ...)` (stdout), `writerClosed` marks
  `writer.Close()`, `contentTypeSet` marks `req.Header.Set("Content-Type",
  writer.FormDataContentType())`, and `request` marks `client.Do(req)`.
-/

/-- A filesystem node: a regular file with its byte content, a directory, or
a symbolic link to a target path. -/
inductive FSNode
  | file (content : List Nat)
  | dir
  | symlink (target : String)
deriving DecidableEq

/-- One part of a multipart form body, as produced by
`writer.CreateFormFile(fieldname, filename)` followed by `io.Copy`. -/
structure FormPart where
  fieldname : String
  filename : String
  content : List Nat
deriving DecidableEq

/-- `workspace.Document`: a file of a solution, addressed both by its
exercise-relative logical path (`Path()`) and its absolute path
(`Filepath()`). -/
structure Document where
  path : String
  filepath : String
deriving DecidableEq

/-- `workspace.Solution`: the metadata loaded from the solution directory. -/
structure Solution where
  id : String
  exercise : String
  track : String
  isRequester : Bool
  autoApprove : Bool
  url : String
deriving DecidableEq

/-- Failure modes of the workspace metadata store `ws.SolutionDir`:
`missingMeta` is the condition recognised by `workspace.IsMissingMetadata`,
`other` is any other lookup error. -/
inductive WsErr
  | missingMeta
  | other
deriving DecidableEq

/-- The errors `runSubmit` can return.  Each constructor corresponds to one
`return`-with-error site of `cmd/submit.go`; structured arguments stand for
the values interpolated into the message templates. -/
inductive Err
  | welcome (apibaseurl : String)
  | rerunConfigure
  | fileNotFound (path : String)
  | isDirectory (path : String)
  | ioError
  | missingMetadata
  | differentSolutions
  | notRequester (exercise : String) (track : String)
  | noFiles
deriving DecidableEq

deriving instance DecidableEq for Except

/-- Observable events of one `runSubmit` invocation, in order. -/
inductive Event
  | warnEmpty (path : String)
  | writerClosed
  | contentTypeSet (value : String)
  | request (method : String) (url : String) (parts : List FormPart)
      (contentType : String)
  | errMsg (s : String)
  | outMsg (s : String)
deriving DecidableEq

/-- The three user-config values `runSubmit` reads through
`usrCfg.GetString`; a missing key yields the empty string. -/
structure Config where
  token : String
  workspace : String
  apibaseurl : String
deriving DecidableEq

/-- The environment of one invocation: the filesystem and the external
collaborators of the pipeline. -/
structure Env where
  /-- The filesystem; `none` means the path does not exist. -/
  fs : String → Option FSNode
  /-- `filepath.Abs`; the identity on already-absolute paths. -/
  abs : String → String
  /-- Fuel for symlink chain resolution in `filepath.EvalSymlinks`. -/
  fuel : Nat
  /-- `ws.SolutionDir`: maps a file path to its owning solution directory. -/
  solutionDir : String → Except WsErr String
  /-- `workspace.NewSolution`: loads the solution metadata of a directory;
  `none` means the load failed. -/
  loadSolution : String → Option Solution
  /-- The boundary string generated by `multipart.NewWriter`. -/
  boundary : String
  /-- `client.Do`: `some bytes` is a transport success whose response body
  holds `bytes`; `none` is a transport error. -/
  httpResp : Option (List Nat)

/-- Follow a symlink chain to a non-symlink node, with fuel.  Returns `none`
on a dangling link, a too-long chain, or a missing path. -/
def resolveLink (fs : String → Option FSNode) : Nat → String → Option String
  | 0, _ => none
  | fuel + 1, p =>
    match fs p with
    | some (FSNode.symlink t) => resolveLink fs fuel t
    | some _ => some p
    | none => none

/-- `os.Stat(p).Size()`: follows symlinks; `none` is a stat error.
Directories report a nonzero size in this model. -/
def statSize (env : Env) (p : String) : Option Nat :=
  match resolveLink env.fs env.fuel p with
  | none => none
  | some q =>
    match env.fs q with
    | some (FSNode.file c) => some c.length
    | some FSNode.dir => some 4096
    | _ => none

/-- `os.Open` then reading the whole file: follows symlinks; `none` is an
open or read error (reading a directory fails). -/
def readFile (env : Env) (p : String) : Option (List Nat) :=
  match resolveLink env.fs env.fuel p with
  | none => none
  | some q =>
    match env.fs q with
    | some (FSNode.file c) => some c
    | _ => none

/-- The exercise-relative path of a file, as computed by
`workspace.NewDocument` from the exercise root (external collaborator,
modelled as stripping the root directory). -/
def relPath (root file : String) : String :=
  if List.isPrefixOf (root ++ "/").data file.data then
    String.mk (file.data.drop (root ++ "/").data.length)
  else file

/-- `workspace.NewDocument(exercise.Filepath(), file)`. -/
def newDocument (root file : String) : Document :=
  { path := relPath root file, filepath := file }

/-- The per-argument half of the first loop of `runSubmit`: `filepath.Abs`,
`os.Lstat` (not-found gets a dedicated error, a directory is rejected), then
`filepath.EvalSymlinks`. -/
def resolveArg (env : Env) (arg : String) : Except Err String :=
  match env.fs (env.abs arg) with
  | none => Except.error (Err.fileNotFound (env.abs arg))
  | some FSNode.dir => Except.error (Err.isDirectory (env.abs arg))
  | some (FSNode.file _) | some (FSNode.symlink _) =>
    match resolveLink env.fs env.fuel (env.abs arg) with
    | none => Except.error Err.ioError
    | some src => Except.ok src

/-- The first loop of `runSubmit`: rewrite every argument to its resolved
path, aborting on the first failure. -/
def resolveArgs (env : Env) : List String → Except Err (List String)
  | [] => Except.ok []
  | a :: rest =>
    match resolveArg env a with
    | Except.error e => Except.error e
    | Except.ok s =>
      match resolveArgs env rest with
      | Except.error e => Except.error e
      | Except.ok l => Except.ok (s :: l)

/-- The second loop of `runSubmit` with the accumulator `exerciseDir`
explicit: look up each path's solution directory, fail on a mismatch with
the accumulated directory. -/
def findSolutionDirGo (env : Env) (acc : String) :
    List String → Except Err String
  | [] => Except.ok acc
  | a :: rest =>
    match env.solutionDir a with
    | Except.error WsErr.missingMeta => Except.error Err.missingMetadata
    | Except.error WsErr.other => Except.error Err.ioError
    | Except.ok dir =>
      if acc ≠ "" ∧ dir ≠ acc then Except.error Err.differentSolutions
      else findSolutionDirGo env dir rest

/-- The second loop of `runSubmit`, starting from the zero value of
`var exerciseDir string`. -/
def findSolutionDir (env : Env) (args : List String) : Except Err String :=
  findSolutionDirGo env "" args

/-- Whether `os.Stat` reports the file's size as exactly zero. -/
def isEmptyFile (env : Env) (f : String) : Bool :=
  match statSize env f with
  | some 0 => true
  | _ => false

/-- The document-collection loop of `runSubmit`: stat each file, skip (with
a warning) those of size zero, build a `Document` for the rest.  Returns the
warned paths in order and either the documents or the first stat error. -/
def collectDocs (env : Env) (root : String) :
    List String → List String × Except Err (List Document)
  | [] => ([], Except.ok [])
  | f :: rest =>
    match statSize env f with
    | none => ([], Except.error Err.ioError)
    | some 0 =>
      let r := collectDocs env root rest
      (f :: r.1, r.2)
    | some (_ + 1) =>
      let r := collectDocs env root rest
      (r.1, r.2.map fun ds => newDocument root f :: ds)

/-- The packaging loop of `runSubmit`: for each document, open its file and
write one part under the fixed field name `files[]` whose filename is the
document's exercise-relative path. -/
def buildParts (env : Env) : List Document → Except Err (List FormPart)
  | [] => Except.ok []
  | d :: rest =>
    match readFile env d.filepath with
    | none => Except.error Err.ioError
    | some c =>
      (buildParts env rest).map fun ps =>
        { fieldname := "files[]", filename := d.path, content := c } :: ps

/-- `writer.FormDataContentType()`: the content type embedding the boundary
of the finalized writer. -/
def formDataContentType (boundary : String) : String :=
  "multipart/form-data; boundary=" ++ boundary

/-- The confirmation suffix when `solution.AutoApprove` is false. -/
def viewSuffix : String := "View it at:\n\n    "

/-- The confirmation suffix when `solution.AutoApprove` is true. -/
def autoApproveSuffix : String :=
  "You can complete the exercise and unlock the next core exercise at:\n"

/-- The confirmation preamble written to the diagnostic stream. -/
def successMsg (suffix : String) : String :=
  "\n\n    Your solution has been submitted successfully.\n    " ++ suffix
    ++ "\n"

/-- The messages an event trace writes to stdout, in order. -/
def outMsgs (trace : List Event) : List String :=
  trace.filterMap fun e =>
    match e with
    | Event.outMsg s => some s
    | _ => none

/-- Whether a `runSubmit` result is the directory-rejection error. -/
def isDirectoryError (r : Except Err Unit) : Bool :=
  match r with
  | Except.error (Err.isDirectory _) => true
  | _ => false

/-- `runSubmit` of `cmd/submit.go`: the whole submission pipeline, returning
its result and the trace of its observable effects. -/
def runSubmit (env : Env) (cfg : Config) (args : List String) :
    Except Err Unit × List Event :=
  if cfg.token = "" then (Except.error (Err.welcome cfg.apibaseurl), [])
  else if cfg.workspace = "" then (Except.error Err.rerunConfigure, [])
  else
    match resolveArgs env args with
    | Except.error e => (Except.error e, [])
    | Except.ok resolved =>
      match findSolutionDir env resolved with
      | Except.error e => (Except.error e, [])
      | Except.ok exerciseDir =>
        match env.loadSolution exerciseDir with
        | none => (Except.error Err.ioError, [])
        | some sol =>
          if sol.isRequester then
            let collected := collectDocs env exerciseDir resolved
            let warnTrace := collected.1.map Event.warnEmpty
            match collected.2 with
            | Except.error e => (Except.error e, warnTrace)
            | Except.ok docs =>
              if docs = [] then (Except.error Err.noFiles, warnTrace)
              else
                match buildParts env docs with
                | Except.error e => (Except.error e, warnTrace)
                | Except.ok parts =>
                  let ct := formDataContentType env.boundary
                  let url := cfg.apibaseurl ++ "/solutions/" ++ sol.id
                  let preTrace := warnTrace ++
                    [Event.writerClosed, Event.contentTypeSet ct,
                     Event.request "PATCH" url parts ct]
                  match env.httpResp with
                  | none => (Except.error Err.ioError, preTrace)
                  | some _ =>
                    let suffix :=
                      if sol.autoApprove then autoApproveSuffix
                      else viewSuffix
                    (Except.ok (), preTrace ++
                      [Event.errMsg (successMsg suffix),
                       Event.outMsg ("    " ++ sol.url ++ "\n\n")])
          else
            (Except.error (Err.notRequester sol.exercise sol.track), [])

/-- Modelled from the spec: the `configure` command and the config package
are not among the sources (only their test `TestConfigure` is), so the
three config layers are modelled from the specification text: a key holds
either a flag value, a persisted value, or nothing. -/
structure ConfigSources where
  flagToken : Option String
  flagWorkspace : Option String
  flagAPI : Option String
  persistedToken : Option String
  persistedWorkspace : Option String
  persistedAPI : Option String
deriving DecidableEq

/-- Modelled from the spec: the fully merged, precedence-resolved
configuration used for one command invocation. -/
structure EffectiveConfig where
  token : String
  workspace : String
  apiBaseURL : String
deriving DecidableEq

/-- Modelled from the spec: the built-in default API base URL. -/
def defaultAPIBaseURL : String := "https://api.exercism.com/v1"

/-- Modelled from the spec: one key resolved with strict precedence — the
explicit flag value is highest, the persisted user value is middle, and the
built-in default is lowest. -/
def resolveKey (flag persisted : Option String) (dflt : String) : String :=
  match flag with
  | some v => v
  | none =>
    match persisted with
    | some v => v
    | none => dflt

/-- Modelled from the spec: merge the three config layers into an
`EffectiveConfig`; only `apiBaseURL` has a built-in default, `token` and
`workspace` fall back to the empty string. -/
def effectiveConfig (s : ConfigSources) : EffectiveConfig :=
  { token := resolveKey s.flagToken s.persistedToken ""
    workspace := resolveKey s.flagWorkspace s.persistedWorkspace ""
    apiBaseURL := resolveKey s.flagAPI s.persistedAPI defaultAPIBaseURL }

/-- The result of the transport stage: a transport error is propagated, a
transport success yields the successful command result. -/
def httpResult (env : Env) : Except Err Unit :=
  match env.httpResp with
  | none => Except.error Err.ioError
  | some _ => Except.ok ()

/-- The events emitted after `client.Do`: nothing on a transport error; the
confirmation preamble on the diagnostic stream followed by the view URL on
stdout on a transport success. -/
def httpTail (env : Env) (sol : Solution) : List Event :=
  match env.httpResp with
  | none => []
  | some _ =>
    [Event.errMsg (successMsg
       (if sol.autoApprove then autoApproveSuffix else viewSuffix)),
     Event.outMsg ("    " ++ sol.url ++ "\n\n")]

/-- A sample solution owned by the configured account. -/
def wSol : Solution :=
  { id := "sid", exercise := "two-fer", track := "go", isRequester := true
    autoApprove := false, url := "https://exercism.io/solutions/sid" }

/-- A sample solution not owned by the configured account. -/
def wSolOther : Solution :=
  { id := "oid", exercise := "hamming", track := "go", isRequester := false
    autoApprove := false, url := "https://exercism.io/solutions/oid" }

/-- A sample environment: one solution directory holding a non-empty file, an
empty file, a subdirectory, a symlink to that subdirectory and two symlinks
to the non-empty file, plus a second solution directory owned by another
account. -/
def wEnv : Env :=
  { fs := fun p =>
      if p = "/ws/track/ex/a.txt" then some (FSNode.file [104, 105])
      else if p = "/ws/track/ex/c.txt" then some (FSNode.file [99])
      else if p = "/ws/track/ex/b.txt" then some (FSNode.file [])
      else if p = "/ws/track/ex/sub" then some FSNode.dir
      else if p = "/ws/track/ex/link" then
        some (FSNode.symlink "/ws/track/ex/sub")
      else if p = "/ws/track/ex/lnk1" then
        some (FSNode.symlink "/ws/track/ex/a.txt")
      else if p = "/ws/track/ex/lnk2" then
        some (FSNode.symlink "/ws/track/ex/a.txt")
      else if p = "/ws/other/f.txt" then some (FSNode.file [120])
      else none
    abs := fun p => p
    fuel := 8
    solutionDir := fun p =>
      if p = "/ws/track/ex/a.txt" ∨ p = "/ws/track/ex/b.txt" ∨
          p = "/ws/track/ex/c.txt" then
        Except.ok "/ws/track/ex"
      else if p = "/ws/other/f.txt" then Except.ok "/ws/other"
      else Except.error WsErr.missingMeta
    loadSolution := fun d =>
      if d = "/ws/track/ex" then some wSol
      else if d = "/ws/other" then some wSolOther
      else none
    boundary := "b123"
    httpResp := some [111, 107] }

/-- A sample configuration with all three keys present. -/
def wCfg : Config :=
  { token := "tok", workspace := "/ws", apibaseurl := "https://api.example.com" }

/-! ## Helper lemmas -/

theorem resolveArgs_ok (env : Env) (σ : String → String) :
    ∀ args : List String,
      (∀ a ∈ args, resolveArg env a = Except.ok (σ a)) →
      resolveArgs env args = Except.ok (args.map σ)
  | [], _ => rfl
  | a :: rest, h => by
    have ha := h a (by simp)
    have hr := resolveArgs_ok env σ rest fun b hb => h b (by simp [hb])
    simp [resolveArgs, ha, hr]

theorem resolveArgs_error (env : Env) (σ : String → String) (e : Err)
    (x : String) (hx : resolveArg env x = Except.error e) :
    ∀ pre post : List String,
      (∀ a ∈ pre, resolveArg env a = Except.ok (σ a)) →
      resolveArgs env (pre ++ x :: post) = Except.error e
  | [], post, _ => by simp [resolveArgs, hx]
  | a :: pre, post, h => by
    have ha := h a (by simp)
    have hr := resolveArgs_error env σ e x hx pre post fun b hb =>
      h b (by simp [hb])
    simp [resolveArgs, ha, hr]

theorem resolveArg_of_dir (env : Env) (arg : String)
    (h : env.fs (env.abs arg) = some FSNode.dir) :
    resolveArg env arg = Except.error (Err.isDirectory (env.abs arg)) := by
  simp [resolveArg, h]

theorem findSolutionDirGo_mismatch (env : Env) (D : String → String) :
    ∀ (l : List String) (acc b : String),
      (∀ x ∈ l, env.solutionDir x = Except.ok (D x)) →
      acc ≠ "" → b ∈ l → D b ≠ acc →
      findSolutionDirGo env acc l = Except.error Err.differentSolutions
  | [], _, b, _, _, hb, _ => absurd hb (List.not_mem_nil b)
  | c :: rest, acc, b, h, hacc, hb, hbne => by
    have hc := h c (by simp)
    by_cases hceq : D c = acc
    · have hbrest : b ∈ rest := by
        rcases List.mem_cons.mp hb with rfl | hmem
        · exact absurd hceq hbne
        · exact hmem
      have ih := findSolutionDirGo_mismatch env D rest (D c) b
        (fun x hx => h x (by simp [hx])) (hceq ▸ hacc) hbrest (hceq ▸ hbne)
      simp only [findSolutionDirGo, hc]
      rw [if_neg fun hh => hh.2 hceq]
      exact ih
    · simp only [findSolutionDirGo, hc]
      rw [if_pos ⟨hacc, hceq⟩]

theorem findSolutionDir_distinct (env : Env) (D : String → String)
    (l : List String) (x y : String)
    (h : ∀ z ∈ l, env.solutionDir z = Except.ok (D z))
    (hne : ∀ z ∈ l, D z ≠ "")
    (hx : x ∈ l) (hy : y ∈ l) (hxy : D x ≠ D y) :
    findSolutionDir env l = Except.error Err.differentSolutions := by
  cases l with
  | nil => exact absurd hx (List.not_mem_nil x)
  | cons c rest =>
    have hc := h c (by simp)
    have hrec : findSolutionDir env (c :: rest) =
        findSolutionDirGo env (D c) rest := by
      simp only [findSolutionDir, findSolutionDirGo, hc]
      rw [if_neg fun hh => hh.1 rfl]
    have hcne : D c ≠ "" := hne c (by simp)
    by_cases hxc : D x = D c
    · have hyc : D y ≠ D c := fun hyc => hxy (by rw [hxc, hyc])
      have hyrest : y ∈ rest := by
        rcases List.mem_cons.mp hy with rfl | hmem
        · exact absurd rfl hyc
        · exact hmem
      rw [hrec]
      exact findSolutionDirGo_mismatch env D rest (D c) y
        (fun z hz => h z (by simp [hz])) hcne hyrest hyc
    · have hxrest : x ∈ rest := by
        rcases List.mem_cons.mp hx with rfl | hmem
        · exact absurd rfl hxc
        · exact hmem
      rw [hrec]
      exact findSolutionDirGo_mismatch env D rest (D c) x
        (fun z hz => h z (by simp [hz])) hcne hxrest hxc

theorem collectDocs_char (env : Env) (root : String) :
    ∀ l : List String,
      (∀ f ∈ l, (statSize env f).isSome = true) →
      collectDocs env root l =
        (l.filter (isEmptyFile env),
         Except.ok
           ((l.filter fun f => !isEmptyFile env f).map (newDocument root)))
  | [], _ => rfl
  | f :: rest, h => by
    have hf := h f (by simp)
    have ih := collectDocs_char env root rest fun g hg => h g (by simp [hg])
    match hs : statSize env f with
    | none => rw [hs] at hf; simp at hf
    | some 0 =>
      have he : isEmptyFile env f = true := by simp [isEmptyFile, hs]
      simp [collectDocs, hs, ih, List.filter_cons, he]
    | some (n + 1) =>
      have he : isEmptyFile env f = false := by simp [isEmptyFile, hs]
      simp [collectDocs, hs, ih, List.filter_cons, he, Except.map]

theorem buildParts_char (env : Env) (γ : String → List Nat) :
    ∀ docs : List Document,
      (∀ d ∈ docs, readFile env d.filepath = some (γ d.filepath)) →
      buildParts env docs =
        Except.ok (docs.map fun d =>
          { fieldname := "files[]", filename := d.path
            content := γ d.filepath })
  | [], _ => rfl
  | d :: rest, h => by
    have hd := h d (by simp)
    have ih := buildParts_char env γ rest fun x hx => h x (by simp [hx])
    simp [buildParts, hd, ih, Except.map]

theorem runSubmit_packaged (env : Env) (cfg : Config)
    (args resolved : List String) (dir : String) (sol : Solution)
    (γ : String → List Nat)
    (h1 : ¬cfg.token = "") (h2 : ¬cfg.workspace = "")
    (h3 : resolveArgs env args = Except.ok resolved)
    (h4 : findSolutionDir env resolved = Except.ok dir)
    (h5 : env.loadSolution dir = some sol)
    (h6 : sol.isRequester = true)
    (h7 : ∀ f ∈ resolved, (statSize env f).isSome = true)
    (h8 : ∀ f ∈ resolved, readFile env f = some (γ f))
    (h9 : resolved.filter (fun f => !isEmptyFile env f) ≠ []) :
    runSubmit env cfg args =
      (httpResult env,
       (resolved.filter (isEmptyFile env)).map Event.warnEmpty ++
         Event.writerClosed ::
         Event.contentTypeSet (formDataContentType env.boundary) ::
         Event.request "PATCH" (cfg.apibaseurl ++ "/solutions/" ++ sol.id)
           ((resolved.filter fun f => !isEmptyFile env f).map fun f =>
             { fieldname := "files[]", filename := (newDocument dir f).path
               content := γ f })
           (formDataContentType env.boundary) :: httpTail env sol) := by
  have hcollect := collectDocs_char env dir resolved h7
  have hdocs : (resolved.filter fun f => !isEmptyFile env f).map
      (newDocument dir) ≠ [] := by
    intro hc
    exact h9 (List.map_eq_nil_iff.mp hc)
  have hbp := buildParts_char env γ
    ((resolved.filter fun f => !isEmptyFile env f).map (newDocument dir))
    (by
      intro d hd
      obtain ⟨f, hf, rfl⟩ := List.mem_map.mp hd
      exact h8 f (List.mem_of_mem_filter hf))
  have hparts :
      ((resolved.filter fun f => !isEmptyFile env f).map
        (newDocument dir)).map
          (fun d => ({ fieldname := "files[]", filename := d.path
                       content := γ d.filepath } : FormPart)) =
      (resolved.filter fun f => !isEmptyFile env f).map fun f =>
        ({ fieldname := "files[]", filename := (newDocument dir f).path
           content := γ f } : FormPart) := by
    rw [List.map_map]
    rfl
  cases hresp : env.httpResp with
  | none =>
    simp only [runSubmit, httpResult, httpTail, if_neg h1, if_neg h2, h3, h4,
      h5, h6, hcollect, hbp, hparts, hresp, if_true, if_neg hdocs]
  | some bytes =>
    simp only [runSubmit, httpResult, httpTail, if_neg h1, if_neg h2, h3, h4,
      h5, h6, hcollect, hbp, hparts, hresp, if_true, if_neg hdocs]
    simp

/-! ## Claims -/

/-- C1: if every argument resolves to a path whose solution directory the
metadata store reports successfully, and two of the arguments resolve to two
distinct (necessarily non-empty) solution directories, then `runSubmit`
fails with the "files belonging to different solutions" error and its event
trace is empty — in particular no body is built (`writerClosed` never
happens) and no network call is made (`request` never happens).  The
hypotheses are symmetric in the order of `args`, so the failure is
independent of argument order. -/
theorem claim_c1_different_solutions (env : Env) (cfg : Config)
    (args : List String) (σ D : String → String)
    (h1 : ¬cfg.token = "") (h2 : ¬cfg.workspace = "")
    (hσ : ∀ a ∈ args, resolveArg env a = Except.ok (σ a))
    (hD : ∀ a ∈ args, env.solutionDir (σ a) = Except.ok (D (σ a)))
    (hne : ∀ a ∈ args, D (σ a) ≠ "")
    (x y : String) (hx : x ∈ args) (hy : y ∈ args)
    (hxy : D (σ x) ≠ D (σ y)) :
    runSubmit env cfg args = (Except.error Err.differentSolutions, []) := by
  have hres := resolveArgs_ok env σ args hσ
  have hfsd := findSolutionDir_distinct env D (args.map σ) (σ x) (σ y)
    (fun z hz => by
      obtain ⟨a, ha, rfl⟩ := List.mem_map.mp hz
      exact hD a ha)
    (fun z hz => by
      obtain ⟨a, ha, rfl⟩ := List.mem_map.mp hz
      exact hne a ha)
    (List.mem_map_of_mem σ hx) (List.mem_map_of_mem σ hy) hxy
  simp [runSubmit, if_neg h1, if_neg h2, hres, hfsd]

/-- C1 witness: two files from two solution directories, in both orders. -/
theorem claim_c1_witness :
    runSubmit wEnv wCfg ["/ws/track/ex/a.txt", "/ws/other/f.txt"] =
      (Except.error Err.differentSolutions, []) ∧
    runSubmit wEnv wCfg ["/ws/other/f.txt", "/ws/track/ex/a.txt"] =
      (Except.error Err.differentSolutions, []) :=
  ⟨claim_c1_different_solutions wEnv wCfg
      ["/ws/track/ex/a.txt", "/ws/other/f.txt"] (fun p => p)
      (fun p => if p = "/ws/other/f.txt" then "/ws/other" else "/ws/track/ex")
      (by decide) (by decide) (by decide) (by decide) (by decide)
      "/ws/track/ex/a.txt" "/ws/other/f.txt" (by decide) (by decide)
      (by decide),
   claim_c1_different_solutions wEnv wCfg
      ["/ws/other/f.txt", "/ws/track/ex/a.txt"] (fun p => p)
      (fun p => if p = "/ws/other/f.txt" then "/ws/other" else "/ws/track/ex")
      (by decide) (by decide) (by decide) (by decide) (by decide)
      "/ws/track/ex/a.txt" "/ws/other/f.txt" (by decide) (by decide)
      (by decide)⟩

/-- C2: when every resolved file stats successfully, the collection loop
returns exactly the zero-size files as warned paths (each warning going to
the diagnostic stream) and builds documents only for the non-empty files, in
order; and if every file is empty, `runSubmit` fails with the "No files
found to submit" error with a trace holding only the warnings — so no
request, and in particular no request with zero parts, is ever sent. -/
theorem claim_c2_empty_files (env : Env) (cfg : Config)
    (args resolved : List String) (dir : String) (sol : Solution)
    (h1 : ¬cfg.token = "") (h2 : ¬cfg.workspace = "")
    (h3 : resolveArgs env args = Except.ok resolved)
    (h4 : findSolutionDir env resolved = Except.ok dir)
    (h5 : env.loadSolution dir = some sol)
    (h6 : sol.isRequester = true)
    (h7 : ∀ f ∈ resolved, (statSize env f).isSome = true) :
    collectDocs env dir resolved =
      (resolved.filter (isEmptyFile env),
       Except.ok
         ((resolved.filter fun f => !isEmptyFile env f).map
           (newDocument dir))) ∧
    ((resolved.filter fun f => !isEmptyFile env f) = [] →
      runSubmit env cfg args =
        (Except.error Err.noFiles,
         (resolved.filter (isEmptyFile env)).map Event.warnEmpty)) := by
  have hcollect := collectDocs_char env dir resolved h7
  refine ⟨hcollect, fun hempty => ?_⟩
  simp only [runSubmit, if_neg h1, if_neg h2, h3, h4, h5, h6, hcollect,
    if_true, hempty, List.map_nil]

/-- C2 witness: a batch holding only an empty file is warned about and
rejected with the no-files error. -/
theorem claim_c2_witness :
    collectDocs wEnv "/ws/track/ex" ["/ws/track/ex/b.txt"] =
      (["/ws/track/ex/b.txt"], Except.ok []) ∧
    runSubmit wEnv wCfg ["/ws/track/ex/b.txt"] =
      (Except.error Err.noFiles, [Event.warnEmpty "/ws/track/ex/b.txt"]) := by
  have h := claim_c2_empty_files wEnv wCfg ["/ws/track/ex/b.txt"]
    ["/ws/track/ex/b.txt"] "/ws/track/ex" wSol (by decide) (by decide)
    (by decide) (by decide) (by decide) (by decide) (by decide)
  exact ⟨h.1, h.2 (by decide)⟩

/-- C3: whenever packaging is reached (every resolved file stats and reads
successfully, with `γ f` the bytes of file `f`, and at least one file is
non-empty), the trace of `runSubmit` shows, in order: the writer being
closed, the Content-Type (which embeds the boundary of the finalized
writer) being computed and set, and then the request carrying exactly one
part per collected document — every part under the form field name
`files[]`, each part's filename the document's exercise-relative path
`(newDocument dir f).path`, and each part's content the bytes `γ f` of the
corresponding file. -/
theorem claim_c3_multipart_body (env : Env) (cfg : Config)
    (args resolved : List String) (dir : String) (sol : Solution)
    (γ : String → List Nat)
    (h1 : ¬cfg.token = "") (h2 : ¬cfg.workspace = "")
    (h3 : resolveArgs env args = Except.ok resolved)
    (h4 : findSolutionDir env resolved = Except.ok dir)
    (h5 : env.loadSolution dir = some sol)
    (h6 : sol.isRequester = true)
    (h7 : ∀ f ∈ resolved, (statSize env f).isSome = true)
    (h8 : ∀ f ∈ resolved, readFile env f = some (γ f))
    (h9 : resolved.filter (fun f => !isEmptyFile env f) ≠ []) :
    runSubmit env cfg args =
      (httpResult env,
       (resolved.filter (isEmptyFile env)).map Event.warnEmpty ++
         Event.writerClosed ::
         Event.contentTypeSet (formDataContentType env.boundary) ::
         Event.request "PATCH" (cfg.apibaseurl ++ "/solutions/" ++ sol.id)
           ((resolved.filter fun f => !isEmptyFile env f).map fun f =>
             { fieldname := "files[]", filename := (newDocument dir f).path
               content := γ f })
           (formDataContentType env.boundary) :: httpTail env sol) :=
  runSubmit_packaged env cfg args resolved dir sol γ h1 h2 h3 h4 h5 h6 h7 h8
    h9

/-- C3 witness: one non-empty and one empty file. -/
theorem claim_c3_witness :
    runSubmit wEnv wCfg ["/ws/track/ex/a.txt", "/ws/track/ex/b.txt"] =
      (httpResult wEnv,
       [Event.warnEmpty "/ws/track/ex/b.txt",
        Event.writerClosed,
        Event.contentTypeSet (formDataContentType wEnv.boundary),
        Event.request "PATCH" "https://api.example.com/solutions/sid"
          [{ fieldname := "files[]", filename := "a.txt"
             content := [104, 105] }]
          (formDataContentType wEnv.boundary)] ++ httpTail wEnv wSol) := by
  have h := claim_c3_multipart_body wEnv wCfg
    ["/ws/track/ex/a.txt", "/ws/track/ex/b.txt"]
    ["/ws/track/ex/a.txt", "/ws/track/ex/b.txt"] "/ws/track/ex" wSol
    (fun f => if f = "/ws/track/ex/a.txt" then [104, 105] else [])
    (by decide) (by decide) (by decide) (by decide) (by decide) (by decide)
    (by decide) (by decide) (by decide)
  rw [h]
  decide

/-- C4 (as written) is wrong about symlinks: the directory check is done on
the `os.Lstat` result, which does not follow symlinks, so an argument that
reaches a directory through a symlink passes the check and the invocation is
NOT rejected with the directory message — here it fails later with the
missing-metadata error instead. -/
theorem claim_c4_counterexample :
    wEnv.fs "/ws/track/ex/link" = some (FSNode.symlink "/ws/track/ex/sub") ∧
    wEnv.fs "/ws/track/ex/sub" = some FSNode.dir ∧
    runSubmit wEnv wCfg ["/ws/track/ex/link"] =
      (Except.error Err.missingMetadata, []) ∧
    isDirectoryError (runSubmit wEnv wCfg ["/ws/track/ex/link"]).1 = false :=
  ⟨by decide, by decide, by decide, by decide⟩

/-- C4 (amended): for every argument that is itself a directory (as reported
by `os.Lstat`, which does not follow symlinks), provided the arguments
before it resolve without error, `runSubmit` rejects the invocation with the
directory message, independent of the directory's contents, with an empty
event trace; an argument that merely reaches a directory through a symlink
is not caught by this check. -/
theorem claim_c4_directory_rejected (env : Env) (cfg : Config)
    (pre post : List String) (arg : String) (σ : String → String)
    (h1 : ¬cfg.token = "") (h2 : ¬cfg.workspace = "")
    (hpre : ∀ a ∈ pre, resolveArg env a = Except.ok (σ a))
    (hdir : env.fs (env.abs arg) = some FSNode.dir) :
    runSubmit env cfg (pre ++ arg :: post) =
      (Except.error (Err.isDirectory (env.abs arg)), []) := by
  have hra := resolveArg_of_dir env arg hdir
  have hres := resolveArgs_error env σ _ arg hra pre post hpre
  simp [runSubmit, if_neg h1, if_neg h2, hres]

/-- C4 witness: a directory argument is rejected. -/
theorem claim_c4_witness :
    runSubmit wEnv wCfg ["/ws/track/ex/sub"] =
      (Except.error (Err.isDirectory "/ws/track/ex/sub"), []) :=
  claim_c4_directory_rejected wEnv wCfg [] [] "/ws/track/ex/sub"
    (fun p => p) (by decide) (by decide) (by decide) (by decide)

/-- C5: on transport success the request is a PATCH to
`apibaseurl ++ "/solutions/" ++ sol.id` carrying the multipart parts and the
matching Content-Type; the confirmation preamble — the auto-approve variant
exactly when `sol.autoApprove` is true, the view variant otherwise — goes to
the diagnostic stream, and stdout receives only the solution's view URL. -/
theorem claim_c5_request_and_output (env : Env) (cfg : Config)
    (args resolved : List String) (dir : String) (sol : Solution)
    (γ : String → List Nat) (respBody : List Nat)
    (h1 : ¬cfg.token = "") (h2 : ¬cfg.workspace = "")
    (h3 : resolveArgs env args = Except.ok resolved)
    (h4 : findSolutionDir env resolved = Except.ok dir)
    (h5 : env.loadSolution dir = some sol)
    (h6 : sol.isRequester = true)
    (h7 : ∀ f ∈ resolved, (statSize env f).isSome = true)
    (h8 : ∀ f ∈ resolved, readFile env f = some (γ f))
    (h9 : resolved.filter (fun f => !isEmptyFile env f) ≠ [])
    (h10 : env.httpResp = some respBody) :
    runSubmit env cfg args =
      (Except.ok (),
       (resolved.filter (isEmptyFile env)).map Event.warnEmpty ++
         Event.writerClosed ::
         Event.contentTypeSet (formDataContentType env.boundary) ::
         Event.request "PATCH" (cfg.apibaseurl ++ "/solutions/" ++ sol.id)
           ((resolved.filter fun f => !isEmptyFile env f).map fun f =>
             { fieldname := "files[]", filename := (newDocument dir f).path
               content := γ f })
           (formDataContentType env.boundary) ::
         Event.errMsg (successMsg
           (if sol.autoApprove then autoApproveSuffix else viewSuffix)) ::
         [Event.outMsg ("    " ++ sol.url ++ "\n\n")]) ∧
    outMsgs (runSubmit env cfg args).2 = ["    " ++ sol.url ++ "\n\n"] := by
  have hrun := runSubmit_packaged env cfg args resolved dir sol γ h1 h2 h3
    h4 h5 h6 h7 h8 h9
  rw [httpResult, httpTail, h10] at hrun
  refine ⟨hrun, ?_⟩
  rw [hrun]
  simp [outMsgs, List.filterMap_append]

/-- C5 witness: the fully evaluated submission of one non-empty file. -/
theorem claim_c5_witness :
    runSubmit wEnv wCfg ["/ws/track/ex/a.txt"] =
      (Except.ok (),
       [Event.writerClosed,
        Event.contentTypeSet (formDataContentType wEnv.boundary),
        Event.request "PATCH" "https://api.example.com/solutions/sid"
          [{ fieldname := "files[]", filename := "a.txt"
             content := [104, 105] }]
          (formDataContentType wEnv.boundary),
        Event.errMsg (successMsg viewSuffix),
        Event.outMsg "    https://exercism.io/solutions/sid\n\n"]) ∧
    outMsgs (runSubmit wEnv wCfg ["/ws/track/ex/a.txt"]).2 =
      ["    https://exercism.io/solutions/sid\n\n"] := by
  have h := claim_c5_request_and_output wEnv wCfg ["/ws/track/ex/a.txt"]
    ["/ws/track/ex/a.txt"] "/ws/track/ex" wSol
    (fun f => if f = "/ws/track/ex/a.txt" then [104, 105] else [])
    [111, 107] (by decide) (by decide) (by decide) (by decide) (by decide)
    (by decide) (by decide) (by decide) (by decide) (by decide)
  exact ⟨by rw [h.1]; decide, by rw [h.2]; decide⟩

/-- C6: an empty resolved token fails with the welcome/configure message,
and (with a token present) an empty resolved workspace fails with the
rerun-configure message; in both cases the result is the same for every
environment and every argument list — so no argument path is touched, no
filesystem resolution happens and no network call is made (the trace is
empty). -/
theorem claim_c6_config_preconditions (cfg : Config) :
    (cfg.token = "" →
      ∀ (env : Env) (args : List String),
        runSubmit env cfg args =
          (Except.error (Err.welcome cfg.apibaseurl), [])) ∧
    (¬cfg.token = "" → cfg.workspace = "" →
      ∀ (env : Env) (args : List String),
        runSubmit env cfg args = (Except.error Err.rerunConfigure, [])) := by
  constructor
  · intro h env args
    simp [runSubmit, h]
  · intro h1 h2 env args
    simp [runSubmit, if_neg h1, h2]

/-- C6 witness: both precondition failures at concrete configs. -/
theorem claim_c6_witness :
    runSubmit wEnv { token := "", workspace := "/ws", apibaseurl := "u" }
        ["/ws/track/ex/a.txt"] =
      (Except.error (Err.welcome "u"), []) ∧
    runSubmit wEnv { token := "tok", workspace := "", apibaseurl := "u" }
        ["/ws/track/ex/a.txt"] =
      (Except.error Err.rerunConfigure, []) :=
  ⟨(claim_c6_config_preconditions
      { token := "", workspace := "/ws", apibaseurl := "u" }).1 rfl wEnv
      ["/ws/track/ex/a.txt"],
   (claim_c6_config_preconditions
      { token := "tok", workspace := "", apibaseurl := "u" }).2 (by decide)
      rfl wEnv ["/ws/track/ex/a.txt"]⟩

/-- C7: when the loaded solution is not owned by the configured account
(`isRequester` false), `runSubmit` fails with the message naming the
re-download command with the solution's exercise and track, before any
document collection (no warnings) and with no request attempted: the trace
is empty. -/
theorem claim_c7_not_requester (env : Env) (cfg : Config)
    (args resolved : List String) (dir : String) (sol : Solution)
    (h1 : ¬cfg.token = "") (h2 : ¬cfg.workspace = "")
    (h3 : resolveArgs env args = Except.ok resolved)
    (h4 : findSolutionDir env resolved = Except.ok dir)
    (h5 : env.loadSolution dir = some sol)
    (h6 : sol.isRequester = false) :
    runSubmit env cfg args =
      (Except.error (Err.notRequester sol.exercise sol.track), []) := by
  simp [runSubmit, if_neg h1, if_neg h2, h3, h4, h5, h6]

/-- C7 witness: a solution downloaded by another account. -/
theorem claim_c7_witness :
    runSubmit wEnv wCfg ["/ws/other/f.txt"] =
      (Except.error (Err.notRequester "hamming" "go"), []) :=
  claim_c7_not_requester wEnv wCfg ["/ws/other/f.txt"] ["/ws/other/f.txt"]
    "/ws/other" wSolOther (by decide) (by decide) (by decide) (by decide)
    (by decide) (by decide)

/-- C8 (config precedence, modelled from the spec since the config package
is not among the sources): with no flag and no persisted value the resolved
API base URL is the built-in default; a flag value always overrides a
persisted value for the same key; and keys not supplied by a flag keep their
persisted values, as in the persisted token-c/workspace-c scenario. -/
theorem claim_c8_config_precedence :
    (∀ s : ConfigSources, s.flagAPI = none → s.persistedAPI = none →
      (effectiveConfig s).apiBaseURL = "https://api.exercism.com/v1") ∧
    (∀ (s : ConfigSources) (v : String), s.flagToken = some v →
      (effectiveConfig s).token = v) ∧
    (∀ (s : ConfigSources) (v : String), s.flagWorkspace = some v →
      (effectiveConfig s).workspace = v) ∧
    (∀ (s : ConfigSources) (v : String), s.flagAPI = some v →
      (effectiveConfig s).apiBaseURL = v) ∧
    effectiveConfig
      { flagToken := some "c", flagWorkspace := none, flagAPI := none
        persistedToken := some "token-c"
        persistedWorkspace := some "/workspace-c"
        persistedAPI := none } =
      { token := "c", workspace := "/workspace-c"
        apiBaseURL := "https://api.exercism.com/v1" } := by
  refine ⟨?_, ?_, ?_, ?_, rfl⟩
  · intro s hf hp
    simp [effectiveConfig, resolveKey, hf, hp, defaultAPIBaseURL]
  · intro s v hf
    simp [effectiveConfig, resolveKey, hf]
  · intro s v hf
    simp [effectiveConfig, resolveKey, hf]
  · intro s v hf
    simp [effectiveConfig, resolveKey, hf]

/-- C8 witness: each precedence conjunct applied at concrete sources. -/
theorem claim_c8_witness :
    (effectiveConfig
      { flagToken := none, flagWorkspace := none, flagAPI := none
        persistedToken := none, persistedWorkspace := none
        persistedAPI := none }).apiBaseURL = "https://api.exercism.com/v1" ∧
    (effectiveConfig
      { flagToken := some "a", flagWorkspace := some "/a"
        flagAPI := some "http://example.com"
        persistedToken := some "token-b", persistedWorkspace := some "/b"
        persistedAPI := some "http://example.com/v1" }).token = "a" ∧
    (effectiveConfig
      { flagToken := some "a", flagWorkspace := some "/a"
        flagAPI := some "http://example.com"
        persistedToken := some "token-b", persistedWorkspace := some "/b"
        persistedAPI := some "http://example.com/v1" }).workspace = "/a" ∧
    (effectiveConfig
      { flagToken := some "a", flagWorkspace := some "/a"
        flagAPI := some "http://example.com"
        persistedToken := some "token-b", persistedWorkspace := some "/b"
        persistedAPI := some "http://example.com/v1" }).apiBaseURL =
      "http://example.com" :=
  ⟨claim_c8_config_precedence.1 _ rfl rfl,
   claim_c8_config_precedence.2.1 _ "a" rfl,
   claim_c8_config_precedence.2.2.1 _ "/a" rfl,
   claim_c8_config_precedence.2.2.2.1 _ "http://example.com" rfl⟩

/-- C9: the parts of the packaged body preserve argument order — with
`σ a` the resolved path of argument `a`, the parts list is exactly the map
of the in-order list of non-empty resolved arguments (empty files removed,
no reordering), because documents are appended in argument order and parts
are written in document order. -/
theorem claim_c9_order_preserved (env : Env) (cfg : Config)
    (args : List String) (dir : String) (sol : Solution)
    (σ : String → String) (γ : String → List Nat)
    (h1 : ¬cfg.token = "") (h2 : ¬cfg.workspace = "")
    (hσ : ∀ a ∈ args, resolveArg env a = Except.ok (σ a))
    (h4 : findSolutionDir env (args.map σ) = Except.ok dir)
    (h5 : env.loadSolution dir = some sol)
    (h6 : sol.isRequester = true)
    (h7 : ∀ f ∈ args.map σ, (statSize env f).isSome = true)
    (h8 : ∀ f ∈ args.map σ, readFile env f = some (γ f))
    (h9 : (args.map σ).filter (fun f => !isEmptyFile env f) ≠ []) :
    runSubmit env cfg args =
      (httpResult env,
       ((args.map σ).filter (isEmptyFile env)).map Event.warnEmpty ++
         Event.writerClosed ::
         Event.contentTypeSet (formDataContentType env.boundary) ::
         Event.request "PATCH" (cfg.apibaseurl ++ "/solutions/" ++ sol.id)
           (((args.map σ).filter fun f => !isEmptyFile env f).map fun f =>
             { fieldname := "files[]", filename := (newDocument dir f).path
               content := γ f })
           (formDataContentType env.boundary) :: httpTail env sol) :=
  runSubmit_packaged env cfg args (args.map σ) dir sol γ h1 h2
    (resolveArgs_ok env σ args hσ) h4 h5 h6 h7 h8 h9

/-- C9 witness: the empty file sits between two non-empty files; the parts
keep the argument order of the non-empty ones. -/
theorem claim_c9_witness :
    runSubmit wEnv wCfg
      ["/ws/track/ex/c.txt", "/ws/track/ex/b.txt", "/ws/track/ex/a.txt"] =
      (httpResult wEnv,
       [Event.warnEmpty "/ws/track/ex/b.txt",
        Event.writerClosed,
        Event.contentTypeSet (formDataContentType wEnv.boundary),
        Event.request "PATCH" "https://api.example.com/solutions/sid"
          [{ fieldname := "files[]", filename := "c.txt", content := [99] },
           { fieldname := "files[]", filename := "a.txt"
             content := [104, 105] }]
          (formDataContentType wEnv.boundary)] ++ httpTail wEnv wSol) := by
  have h := claim_c9_order_preserved wEnv wCfg
    ["/ws/track/ex/c.txt", "/ws/track/ex/b.txt", "/ws/track/ex/a.txt"]
    "/ws/track/ex" wSol (fun p => p)
    (fun f => if f = "/ws/track/ex/c.txt" then [99]
      else if f = "/ws/track/ex/a.txt" then [104, 105] else [])
    (by decide) (by decide) (by decide) (by decide) (by decide) (by decide)
    (by decide) (by decide) (by decide)
  rw [h]
  decide

/-- C10: duplicate inputs are not deduplicated — if two arguments (for
instance two symlinks) resolve to the same non-empty file, the parts of the
packaged body contain the part of that file (same filename, same content)
at least twice, and the request carrying them is submitted. -/
theorem claim_c10_duplicates_kept (env : Env) (cfg : Config)
    (args : List String) (dir : String) (sol : Solution)
    (σ : String → String) (γ : String → List Nat) (x y : String)
    (h1 : ¬cfg.token = "") (h2 : ¬cfg.workspace = "")
    (hσ : ∀ a ∈ args, resolveArg env a = Except.ok (σ a))
    (h4 : findSolutionDir env (args.map σ) = Except.ok dir)
    (h5 : env.loadSolution dir = some sol)
    (h6 : sol.isRequester = true)
    (h7 : ∀ f ∈ args.map σ, (statSize env f).isSome = true)
    (h8 : ∀ f ∈ args.map σ, readFile env f = some (γ f))
    (hsub : List.Sublist [x, y] args) (hsame : σ x = σ y)
    (hfull : isEmptyFile env (σ x) = false) :
    runSubmit env cfg args =
      (httpResult env,
       ((args.map σ).filter (isEmptyFile env)).map Event.warnEmpty ++
         Event.writerClosed ::
         Event.contentTypeSet (formDataContentType env.boundary) ::
         Event.request "PATCH" (cfg.apibaseurl ++ "/solutions/" ++ sol.id)
           (((args.map σ).filter fun f => !isEmptyFile env f).map fun f =>
             { fieldname := "files[]", filename := (newDocument dir f).path
               content := γ f })
           (formDataContentType env.boundary) :: httpTail env sol) ∧
    2 ≤ List.count
      ({ fieldname := "files[]", filename := (newDocument dir (σ x)).path
         content := γ (σ x) } : FormPart)
      (((args.map σ).filter fun f => !isEmptyFile env f).map fun f =>
        { fieldname := "files[]", filename := (newDocument dir f).path
          content := γ f }) := by
  have hsub1 : List.Sublist [σ x, σ y] (args.map σ) := by
    have := List.Sublist.map σ hsub
    simpa using this
  have hsub2 : List.Sublist [σ x, σ x] (args.map σ) := by
    rw [hsame] at hsub1 ⊢
    exact hsub1
  have hfilter : List.Sublist [σ x, σ x]
      ((args.map σ).filter fun f => !isEmptyFile env f) := by
    have := List.Sublist.filter (fun f => !isEmptyFile env f) hsub2
    rw [hsame] at this ⊢
    simpa [List.filter_cons, hsame ▸ hfull] using this
  have hxmem : σ x ∈ args.map σ :=
    hsub1.subset (by simp)
  have hcount : 2 ≤ List.count
      ({ fieldname := "files[]", filename := (newDocument dir (σ x)).path
         content := γ (σ x) } : FormPart)
      (((args.map σ).filter fun f => !isEmptyFile env f).map fun f =>
        { fieldname := "files[]", filename := (newDocument dir f).path
          content := γ f }) := by
    have hmapped := List.Sublist.map
      (fun f => ({ fieldname := "files[]"
                   filename := (newDocument dir f).path
                   content := γ f } : FormPart)) hfilter
    have := List.Sublist.count_le hmapped
      ({ fieldname := "files[]", filename := (newDocument dir (σ x)).path
         content := γ (σ x) } : FormPart)
    simpa using this
  have h9 : (args.map σ).filter (fun f => !isEmptyFile env f) ≠ [] := by
    intro hnil
    rw [hnil] at hfilter
    exact absurd (List.sublist_nil.mp hfilter) (by simp)
  exact ⟨runSubmit_packaged env cfg args (args.map σ) dir sol γ h1 h2
    (resolveArgs_ok env σ args hσ) h4 h5 h6 h7 h8 h9, hcount⟩

/-- C10 witness: two symlinks to the same non-empty file yield two identical
parts, both submitted. -/
theorem claim_c10_witness :
    runSubmit wEnv wCfg ["/ws/track/ex/lnk1", "/ws/track/ex/lnk2"] =
      (httpResult wEnv,
       [Event.writerClosed,
        Event.contentTypeSet (formDataContentType wEnv.boundary),
        Event.request "PATCH" "https://api.example.com/solutions/sid"
          [{ fieldname := "files[]", filename := "a.txt"
             content := [104, 105] },
           { fieldname := "files[]", filename := "a.txt"
             content := [104, 105] }]
          (formDataContentType wEnv.boundary)] ++ httpTail wEnv wSol) ∧
    2 ≤ List.count
      ({ fieldname := "files[]", filename := "a.txt"
         content := [104, 105] } : FormPart)
      [{ fieldname := "files[]", filename := "a.txt"
         content := [104, 105] },
       { fieldname := "files[]", filename := "a.txt"
         content := [104, 105] }] := by
  have h := claim_c10_duplicates_kept wEnv wCfg
    ["/ws/track/ex/lnk1", "/ws/track/ex/lnk2"] "/ws/track/ex" wSol
    (fun _ => "/ws/track/ex/a.txt") (fun _ => [104, 105])
    "/ws/track/ex/lnk1" "/ws/track/ex/lnk2"
    (by decide) (by decide) (by decide) (by decide) (by decide) (by decide)
    (by decide) (by decide) (List.Sublist.refl _) rfl (by decide)
  exact ⟨by rw [h.1]; decide, by decide⟩
